import Mathlib

/-!
Verification of `scripts/stl-to-glb.py`, a small command-line converter that
loads a mesh file, tints the faces of each geometry with a fixed per-category
color, and exports to binary glTF (GLB), optionally splitting a multi-geometry
scene into one file per geometry.

Modelling choices (shallow embedding):
* The Python float literals of `CATEGORY_COLORS` (e.g. `0.969`) are all decimal
  numbers with three fractional digits; they are modelled exactly as naturals
  in thousandths (`0.969 ↦ 969`, `1.0 ↦ 1000`).  The script computes
  `(np.array(color) * 255).astype(np.uint8)`, i.e. a float64 multiplication
  followed by a C cast to `uint8` (truncation toward zero, reduced mod 256);
  on thousandths that is `c * 255 / 1000` (natural floor division) `% 256`.
  For every component appearing in the table or the default `[0.5,0.5,0.5,1.0]`
  the exact product `(c/1000) * 255` lies at distance at least `0.005` from
  every integer or is exactly an integer, far beyond the `~1e-13` rounding
  error of float64, so the float64 truncation agrees with the exact floor:
  `toByte` below is a faithful model of the scaling.
* Meshes/scenes are opaque to the script except for the face list and the
  per-face color attribute; `Geometry` keeps exactly those.  A loaded entity is
  either a single geometry or a scene, i.e. an ordered association list of
  named geometries (`trimesh.Scene.geometry` iterates in insertion order).
* `export(entity, path, "glb")` is modelled by recording an `ExportCall`;
  `print(json.dumps(results))` is modelled by the list of records printed.
-/

namespace StlToGlb

/-- The table `CATEGORY_COLORS` of the script: category name to RGBA with
float components in `[0,1]`, here in exact thousandths
(`[0.969, 0.714, 0.0, 1.0] ↦ [969, 714, 0, 1000]`).  The inline comments of
the source document the intended hex colors: supports `#f7b600`, connectors
`#0056b3`, lockpins `#c41e3a`, other `#4a9e4a`. -/
def CATEGORY_COLORS : List (String × List ℕ) :=
  [("supports", [969, 714, 0, 1000]),
   ("connectors", [0, 337, 702, 1000]),
   ("lockpins", [769, 118, 227, 1000]),
   ("other", [290, 620, 290, 1000])]

/-- The default color `[0.5, 0.5, 0.5, 1.0]` (in thousandths) used by
`CATEGORY_COLORS.get(category, [0.5, 0.5, 0.5, 1.0])` for an unknown
category. -/
def defaultColor : List ℕ := [500, 500, 500, 1000]

/-- One float component (in thousandths) scaled by `astype(np.uint8)` after
`* 255`: truncation toward zero of a nonnegative value, reduced mod 256. -/
def toByte (x : ℕ) : ℕ := (x * 255 / 1000) % 256

/-- The color-resolution step of `_apply_color`:
`CATEGORY_COLORS.get(category, [0.5, 0.5, 0.5, 1.0])` then
`(np.array(color) * 255).astype(np.uint8)`. -/
def resolveColor (category : String) : List ℕ :=
  ((CATEGORY_COLORS.lookup category).getD defaultColor).map toByte

/-- A mesh as the script sees it: a face list (`mesh.faces`, each face a
vertex-index triple) and the per-face RGBA color attribute carried by
`mesh.visual` (`face_colors`), one byte-quadruple per face. -/
structure Geometry where
  faces : List (ℕ × ℕ × ℕ)
  visual : List (List ℕ)
deriving DecidableEq

/-- `_apply_color(mesh, category)`: overwrite the visual with
`np.tile(color_rgba, (len(mesh.faces), 1))`, i.e. one copy of the resolved
color per face. -/
def applyColor (mesh : Geometry) (category : String) : Geometry :=
  { mesh with visual := List.replicate mesh.faces.length (resolveColor category) }

/-- The result of `trimesh.load`: either a single geometry or a
`trimesh.Scene`, whose `geometry` attribute is an ordered mapping from names
to geometries. -/
inductive Loaded where
  | single (g : Geometry)
  | scene (geoms : List (String × Geometry))
deriving DecidableEq

/-- The geometries contained in a loaded entity, in iteration order. -/
def geometriesOf : Loaded → List Geometry
  | .single g => [g]
  | .scene gs => gs.map Prod.snd

/-- The colorizing phase shared by `convert` and the single-file branch of
`split_convert`: `_apply_color` on every geometry of a scene, or on the single
mesh directly. -/
def colorizeLoaded (m : Loaded) (category : String) : Loaded :=
  match m with
  | .scene gs => .scene (gs.map fun p => (p.1, applyColor p.2 category))
  | .single g => .single (applyColor g category)

/-- One call of `export(path, file_type)`, with the entity exported.  A bare
geometry export (`geometry.export` in the split loop) is recorded as
`Loaded.single` of that geometry. -/
structure ExportCall where
  path : String
  entity : Loaded
  fmt : String
deriving DecidableEq

/-- `convert(input_path, glb_path, category)`, with the loaded entity made
explicit: colorize (every geometry of a scene, or the mesh directly) and
export the whole to `glb_path` with `file_type="glb"`.  The function returns
nothing; its effect is the single export call. -/
def convert (m : Loaded) (glbPath : String) (category : String) : List ExportCall :=
  [⟨glbPath, colorizeLoaded m category, "glb"⟩]

/-- One record of the JSON array printed by `split_convert`:
`{"index": i, "name": name, "file": filename}`. -/
structure Record where
  index : ℕ
  name : String
  file : String
deriving DecidableEq

/-- `os.path.basename` on POSIX: everything after the last `/` (empty when the
path ends in `/`). -/
def basename (p : String) : String :=
  ⟨(p.data.reverse.takeWhile (fun c => c ≠ '/')).reverse⟩

/-- The multi-geometry branch of `split_convert`: for each named geometry, in
order and with 1-based index `i`, apply the color, export to
`f"{output_prefix}-{i}.glb"`, and record
`{"index": i, "name": name, "file": os.path.basename(filename)}`. -/
def splitConvertMulti (gs : List (String × Geometry)) (pfx category : String) :
    List ExportCall × List Record :=
  ((gs.enumFrom 1).map fun p =>
      ⟨pfx ++ "-" ++ toString p.1 ++ ".glb", .single (applyColor p.2.2 category), "glb"⟩,
   (gs.enumFrom 1).map fun p =>
      ⟨p.1, p.2.1, basename (pfx ++ "-" ++ toString p.1 ++ ".glb")⟩)

/-- The single-file branch of `split_convert`: colorize (each geometry of a
scene, or the mesh directly), export the whole to `f"{output_prefix}.glb"`,
and record `{"index": 1, "name": os.path.basename(input_path),
"file": os.path.basename(filename)}`. -/
def splitConvertSingle (m : Loaded) (inputPath pfx category : String) :
    List ExportCall × List Record :=
  ([⟨pfx ++ ".glb", colorizeLoaded m category, "glb"⟩],
   [⟨1, basename inputPath, basename (pfx ++ ".glb")⟩])

/-- `split_convert(input_path, output_prefix, category)` with the loaded
entity made explicit.  The multi branch runs only for a `Scene` with more than
one geometry (`isinstance(mesh, trimesh.Scene) and len(mesh.geometry) > 1`);
everything else takes the single-file branch.  Returns the export calls and
the record list printed as a JSON array on stdout. -/
def splitConvert (m : Loaded) (inputPath pfx category : String) :
    List ExportCall × List Record :=
  match m with
  | .scene gs =>
    if 1 < gs.length then splitConvertMulti gs pfx category
    else splitConvertSingle m inputPath pfx category
  | .single _ => splitConvertSingle m inputPath pfx category

/-- The usage line of the `--split` form, printed to stderr. -/
def usageSplit (prog : String) : String :=
  "Usage: " ++ prog ++ " --split <input> <output-prefix> [category]"

/-- The usage line of the plain form, printed to stderr. -/
def usagePlain (prog : String) : String :=
  "Usage: " ++ prog ++ " <input> <output.glb> [category]"

/-- The observable outcome of one run of the script's `__main__` block:
exit status, the usage line printed to stderr (if any), the export calls
performed, and the record list printed to stdout (if any). -/
structure MainResult where
  exitCode : ℕ
  stderrMsg : Option String
  exports : List ExportCall
  stdoutRecords : Option (List Record)
deriving DecidableEq

/-- The `__main__` block.  `argv` is the full `sys.argv` (program name first);
`loader` stands for `trimesh.load`, mapping an input path to the loaded
entity. -/
def scriptMain (loader : String → Loaded) (argv : List String) : MainResult :=
  if 2 ≤ argv.length ∧ argv.getD 1 "" = "--split" then
    if argv.length < 4 then
      ⟨1, some (usageSplit (argv.getD 0 "")), [], none⟩
    else
      let inputPath := argv.getD 2 ""
      let pfx := argv.getD 3 ""
      let category := if 4 < argv.length then argv.getD 4 "" else "supports"
      let r := splitConvert (loader inputPath) inputPath pfx category
      ⟨0, none, r.1, some r.2⟩
  else
    if argv.length < 3 then
      ⟨1, some (usagePlain (argv.getD 0 "")), [], none⟩
    else
      let inputPath := argv.getD 1 ""
      let glbPath := argv.getD 2 ""
      let category := if 3 < argv.length then argv.getD 3 "" else "supports"
      ⟨0, none, convert (loader inputPath) glbPath category, none⟩

/-- The reading of the scaling given by the spec ("multiplying the stored
float components by 255 and rounding"), for comparison with `toByte`:
round-to-nearest on thousandths is `(x * 255 + 500) / 1000`.  No component of
`CATEGORY_COLORS` has a product `x * 255` at half distance between two
integers, so the tie-breaking mode is irrelevant for known categories. -/
def resolveColorRounded (category : String) : List ℕ :=
  ((CATEGORY_COLORS.lookup category).getD defaultColor).map
    (fun x => (x * 255 + 500) / 1000)

/-- A fixed stand-in for `trimesh.load` used by concrete witnesses. -/
def trivialLoader : String → Loaded := fun _ => .single ⟨[], []⟩

/-- A concrete three-geometry scene used by concrete witnesses. -/
def demoScene : List (String × Geometry) :=
  [("g1", ⟨[(0, 1, 2)], []⟩), ("g2", ⟨[(0, 1, 2), (1, 2, 3)], []⟩), ("g3", ⟨[], []⟩)]

lemma toByte_le_255 (x : ℕ) : toByte x ≤ 255 :=
  Nat.le_of_lt_succ (Nat.mod_lt _ (by norm_num))

lemma resolveColor_of_unknown {category : String} (h1 : category ≠ "supports")
    (h2 : category ≠ "connectors") (h3 : category ≠ "lockpins")
    (h4 : category ≠ "other") :
    resolveColor category = [127, 127, 127, 255] := by
  have hl : CATEGORY_COLORS.lookup category = none := by
    simp [CATEGORY_COLORS, List.lookup, beq_eq_false_iff_ne.mpr h1,
      beq_eq_false_iff_ne.mpr h2, beq_eq_false_iff_ne.mpr h3,
      beq_eq_false_iff_ne.mpr h4]
  simp only [resolveColor, hl]
  decide

/-- C1: FALSIFIED BY THE CODE.  The claim says the color resolution yields the
documented byte values obtained by multiplying the float components by 255 and
rounding; the code instead truncates (`astype(np.uint8)`).  For "supports" the
two agree on `[247, 182, 0, 255]`, but for "connectors" the code produces
`[0, 85, 179, 255]` while rounding — and the hex color `#0056b3` documented in
the source's own comment — gives green 86.  This theorem evaluates both
readings at the failing input. -/
theorem c1_connectors_truncated_not_rounded :
    resolveColor "supports" = [247, 182, 0, 255] ∧
    resolveColor "connectors" = [0, 85, 179, 255] ∧
    resolveColorRounded "connectors" = [0, 86, 179, 255] ∧
    resolveColor "connectors" ≠ resolveColorRounded "connectors" := by
  decide

/-- C2: on a scene with more than one geometry, `split_convert` exports the
`j`-th geometry (0-based `j`) colorized to `"{prefix}-{j+1}.glb"` and emits
one record per geometry in scene order, record `j` having index `j + 1` and
the geometry's own name. -/
theorem c2_split_multi (gs : List (String × Geometry)) (inputPath pfx category : String)
    (h : 1 < gs.length) :
    (splitConvert (.scene gs) inputPath pfx category).1.length = gs.length ∧
    (splitConvert (.scene gs) inputPath pfx category).2.length = gs.length ∧
    ∀ j, ∀ hj : j < gs.length,
      (splitConvert (.scene gs) inputPath pfx category).1[j]? =
        some ⟨pfx ++ "-" ++ toString (j + 1) ++ ".glb",
              .single (applyColor (gs.get ⟨j, hj⟩).2 category), "glb"⟩ ∧
      (splitConvert (.scene gs) inputPath pfx category).2[j]? =
        some ⟨j + 1, (gs.get ⟨j, hj⟩).1,
              basename (pfx ++ "-" ++ toString (j + 1) ++ ".glb")⟩ := by
  simp only [splitConvert, if_pos h, splitConvertMulti]
  refine ⟨by simp, by simp, ?_⟩
  intro j hj
  constructor <;>
    simp [List.getElem?_map, List.getElem?_enumFrom, List.getElem?_eq_getElem hj,
      Nat.add_comm 1 j]

/-- C2 witness: a concrete three-geometry scene; its second record is
`{"index": 2, "name": "g2", "file": "part-2.glb"}`. -/
theorem c2_split_multi_witness :
    (splitConvert (.scene demoScene) "models/in.stl" "out/part" "supports").2[1]? =
      some ⟨2, "g2", "part-2.glb"⟩ := by
  have h :=
    ((c2_split_multi demoScene "models/in.stl" "out/part" "supports"
        (by decide)).2.2 1 (by decide)).2
  rw [h]
  decide

/-- C3: on a single-geometry input, or a scene containing exactly one
geometry, `split_convert` exports exactly once to `"{prefix}.glb"` and emits
exactly one record with index 1 and name the base name of the input path. -/
theorem c3_split_single (m : Loaded) (inputPath pfx category : String)
    (h : (∃ g, m = .single g) ∨ ∃ p, m = .scene [p]) :
    splitConvert m inputPath pfx category =
      ([⟨pfx ++ ".glb", colorizeLoaded m category, "glb"⟩],
       [⟨1, basename inputPath, basename (pfx ++ ".glb")⟩]) := by
  rcases h with ⟨g, rfl⟩ | ⟨p, rfl⟩ <;>
    simp [splitConvert, splitConvertSingle]

/-- C3 witness: a concrete one-geometry scene, input `models/box.stl`,
output prefix `out/box`. -/
theorem c3_split_single_witness :
    splitConvert (.scene [("g1", ⟨[(0, 1, 2)], []⟩)]) "models/box.stl" "out/box" "other" =
      ([⟨"out/box.glb",
         colorizeLoaded (.scene [("g1", ⟨[(0, 1, 2)], []⟩)]) "other", "glb"⟩],
       [⟨1, "box.stl", "box.glb"⟩]) := by
  have h := c3_split_single (.scene [("g1", ⟨[(0, 1, 2)], []⟩)]) "models/box.stl"
    "out/box" "other" (Or.inr ⟨("g1", ⟨[(0, 1, 2)], []⟩), rfl⟩)
  rw [h]
  decide

/-- C4: `convert` performs exactly one export, to the given output path with
`file_type="glb"`; the exported entity has the same geometries (same face
lists) as the loaded one, and every contained geometry — whether the load gave
a scene or a single mesh — carries one copy of the category's resolved color
per face. -/
theorem c4_convert_whole (m : Loaded) (glbPath category : String) :
    ∃ e, convert m glbPath category = [e] ∧ e.path = glbPath ∧ e.fmt = "glb" ∧
      (geometriesOf e.entity).map Geometry.faces = (geometriesOf m).map Geometry.faces ∧
      ∀ g ∈ geometriesOf e.entity,
        g.visual = List.replicate g.faces.length (resolveColor category) := by
  refine ⟨⟨glbPath, colorizeLoaded m category, "glb"⟩, rfl, rfl, rfl, ?_, ?_⟩
  · cases m with
    | single g => simp [geometriesOf, colorizeLoaded, applyColor]
    | scene gs => simp [geometriesOf, colorizeLoaded, applyColor, List.map_map,
        Function.comp]
  · cases m with
    | single g => simp [geometriesOf, colorizeLoaded, applyColor]
    | scene gs =>
      intro g hg
      simp only [geometriesOf, colorizeLoaded, List.map_map, List.mem_map,
        Function.comp] at hg
      obtain ⟨p, _, rfl⟩ := hg
      simp [applyColor]

/-- C5: `_apply_color` on a geometry with `N` faces replaces the visual with
exactly `N` repeated copies of the resolved color; hence every face carries
the identical color, and every component of it lies in `[0, 255]`. -/
theorem c5_uniform_face_colors (g : Geometry) (category : String) :
    (applyColor g category).visual = List.replicate g.faces.length (resolveColor category) ∧
    ∀ c ∈ (applyColor g category).visual,
      c = resolveColor category ∧ ∀ x ∈ c, x ≤ 255 := by
  refine ⟨rfl, ?_⟩
  intro c hc
  have hcr : c = resolveColor category := List.eq_of_mem_replicate hc
  refine ⟨hcr, ?_⟩
  intro x hx
  rw [hcr] at hx
  obtain ⟨y, -, rfl⟩ := List.mem_map.mp hx
  exact toByte_le_255 y

/-- C6: with fewer than the required positional arguments — fewer than 2 after
the program name in the plain form, fewer than 2 after `--split` in the split
form — the script exits with status 1, prints the corresponding usage line to
standard error, performs no export, and prints nothing to stdout. -/
theorem c6_missing_args (loader : String → Loaded) (argv : List String)
    (h : (2 ≤ argv.length ∧ argv.getD 1 "" = "--split" ∧ argv.length < 4) ∨
         (¬(2 ≤ argv.length ∧ argv.getD 1 "" = "--split") ∧ argv.length < 3)) :
    (scriptMain loader argv).exitCode = 1 ∧
    ((scriptMain loader argv).stderrMsg = some (usageSplit (argv.getD 0 "")) ∨
     (scriptMain loader argv).stderrMsg = some (usagePlain (argv.getD 0 ""))) ∧
    (scriptMain loader argv).exports = [] ∧
    (scriptMain loader argv).stdoutRecords = none := by
  rcases h with ⟨h1, h2, h3⟩ | ⟨h1, h2⟩
  · simp only [scriptMain]
    rw [if_pos ⟨h1, h2⟩, if_pos h3]
    simp
  · simp only [scriptMain]
    rw [if_neg h1, if_pos h2]
    simp

/-- C6 witness: invoking with no arguments at all (plain form, 0 positional
arguments). -/
theorem c6_missing_args_witness :
    (scriptMain trivialLoader ["stl-to-glb.py"]).exitCode = 1 ∧
    ((scriptMain trivialLoader ["stl-to-glb.py"]).stderrMsg =
       some (usageSplit (["stl-to-glb.py"].getD 0 "")) ∨
     (scriptMain trivialLoader ["stl-to-glb.py"]).stderrMsg =
       some (usagePlain (["stl-to-glb.py"].getD 0 ""))) ∧
    (scriptMain trivialLoader ["stl-to-glb.py"]).exports = [] ∧
    (scriptMain trivialLoader ["stl-to-glb.py"]).stdoutRecords = none :=
  c6_missing_args trivialLoader ["stl-to-glb.py"] (Or.inr ⟨by decide, by decide⟩)

/-- C7: any category string outside the four known keys resolves to the
default gray `[127, 127, 127, 255]` (from `[0.5, 0.5, 0.5, 1.0] * 255`
truncated); the resolution is a total function, so no category string can
raise. -/
theorem c7_unknown_category_gray (category : String)
    (h : category ∉ ["supports", "connectors", "lockpins", "other"]) :
    resolveColor category = [127, 127, 127, 255] := by
  refine resolveColor_of_unknown ?_ ?_ ?_ ?_ <;>
    · intro hh
      exact h (by simp [hh])

/-- C7 witness: the unknown category "teal". -/
theorem c7_unknown_category_gray_witness :
    "teal" ∉ ["supports", "connectors", "lockpins", "other"] ∧
    resolveColor "teal" = [127, 127, 127, 255] :=
  ⟨by decide, c7_unknown_category_gray "teal" (by decide)⟩

/-- C8: in every branch of `split_convert`, the `"file"` field of each record
is the base name of the corresponding export's path, while the export itself
goes to the full path beginning with the output prefix (so a prefix with
directory components writes into that directory, but the record keeps only
the file name). -/
theorem c8_record_file_basename (m : Loaded) (inputPath pfx category : String) :
    ((splitConvert m inputPath pfx category).2.map Record.file =
      (splitConvert m inputPath pfx category).1.map (fun e => basename e.path)) ∧
    ∀ e ∈ (splitConvert m inputPath pfx category).1, ∃ s, e.path = pfx ++ s := by
  have hsingle : ∀ m' : Loaded,
      ((splitConvertSingle m' inputPath pfx category).2.map Record.file =
        (splitConvertSingle m' inputPath pfx category).1.map (fun e => basename e.path)) ∧
      ∀ e ∈ (splitConvertSingle m' inputPath pfx category).1, ∃ s, e.path = pfx ++ s := by
    intro m'
    exact ⟨rfl, fun e he => by
      simp [splitConvertSingle] at he
      exact ⟨".glb", by rw [he]⟩⟩
  cases m with
  | single g => exact hsingle _
  | scene gs =>
    by_cases h : 1 < gs.length
    · simp only [splitConvert, if_pos h, splitConvertMulti]
      constructor
      · simp [List.map_map, Function.comp]
      · intro e he
        simp only [List.mem_map] at he
        obtain ⟨p, -, rfl⟩ := he
        exact ⟨"-" ++ toString p.1 ++ ".glb", by simp [String.append_assoc]⟩
    · simp only [splitConvert, if_neg h]
      exact hsingle _

/-- C10: `split_convert` always emits at least one record, and the first
record's index is 1 in both the multi-geometry and the single-file branch. -/
theorem c10_first_record_index_one (m : Loaded) (inputPath pfx category : String) :
    (splitConvert m inputPath pfx category).2 ≠ [] ∧
    ((splitConvert m inputPath pfx category).2.map Record.index).head? = some 1 := by
  cases m with
  | single g => exact ⟨by simp [splitConvert, splitConvertSingle], rfl⟩
  | scene gs =>
    by_cases h : 1 < gs.length
    · match gs, h with
      | a :: t, h =>
        have ht : 0 < t.length := by simpa using h
        exact ⟨by simp [splitConvert, splitConvertMulti, List.enumFrom, ht],
          by simp [splitConvert, splitConvertMulti, List.enumFrom, ht]⟩
    · exact ⟨by simp [splitConvert, if_neg h, splitConvertSingle],
        by simp [splitConvert, if_neg h, splitConvertSingle]⟩

/-- C9: the alpha component (position 3) of the applied color is 255 for every
category string, known or unknown: every table entry and the default have
alpha 1.0, and `1.0 * 255` is exactly 255. -/
theorem c9_alpha_always_255 (category : String) :
    (resolveColor category)[3]? = some 255 := by
  by_cases h1 : category = "supports"
  · subst h1; decide
  by_cases h2 : category = "connectors"
  · subst h2; decide
  by_cases h3 : category = "lockpins"
  · subst h3; decide
  by_cases h4 : category = "other"
  · subst h4; decide
  rw [resolveColor_of_unknown h1 h2 h3 h4]
  decide

end StlToGlb
